import Mathlib

/-!
# Stories API: a shallow embedding of `models/Story.js` and `routes/stories.js`

The seven route handlers are embedded as pure functions from the request and the
current collection to a response and the next collection.

* An `ObjectId` is the 96-bit number it encodes; `toString()` (its hexadecimal
  rendering) is injective, so comparing renderings is comparing numbers.
* The collection is a list of documents; `findById` reads the first document carrying
  the id, `save` rewrites that document (or inserts a new one).
* Everything the handlers obtain from outside is explicit: the clock, the id
  generator, the `users` collection read by `populate`, and the store operations that
  throw (`Env.fault`).
* A request body is typed: the five schema paths a client may send carry values of the
  schema's type, every further key carries its raw JSON text.
* The numbers `parseInt` returns and their products are the integer-valued IEEE doubles
  (`JsNumber`), every result rounded to the nearest double; `parseFloat` and the query
  engine's geospatial and regular expression matching are kept abstract (`Caps`), and
  so is what the `2dsphere` index of the schema accepts (`Env.indexAccepts`).
-/

namespace Stories

/-! ## Text helpers -/

/-- Code points of ECMAScript `WhiteSpace` and `LineTerminator`, the characters removed by
`String.prototype.trim` and skipped by `parseInt`. -/
def whiteSpaceCodes : List Nat :=
  [0x09, 0x0A, 0x0B, 0x0C, 0x0D, 0x20, 0xA0, 0x1680, 0x2000, 0x2001, 0x2002, 0x2003,
   0x2004, 0x2005, 0x2006, 0x2007, 0x2008, 0x2009, 0x200A, 0x2028, 0x2029, 0x202F,
   0x205F, 0x3000, 0xFEFF]

def isWhiteSpace (c : Char) : Bool := whiteSpaceCodes.contains c.toNat

/-- Code points of ECMAScript `LineTerminator`, which `.` in a regular expression refuses. -/
def lineTerminatorCodes : List Nat := [0x0A, 0x0D, 0x2028, 0x2029]

def isLineTerminator (c : Char) : Bool := lineTerminatorCodes.contains c.toNat

def trimStart (cs : List Char) : List Char := cs.dropWhile isWhiteSpace

def trimChars (cs : List Char) : List Char :=
  (trimStart (trimStart cs).reverse).reverse

/-- The method `String.prototype.trim`. -/
def trim (s : String) : String := String.mk (trimChars s.data)

/-- The property `String.prototype.length`: the number of UTF-16 code units. -/
def jsLength (s : String) : Nat :=
  (s.data.map (fun c => if c.toNat < 0x10000 then 1 else 2)).sum

/-- The test `v.match(/^https?:\/\/.+$/)` of the `images` validator: the scheme, then at
least one character and no line terminator up to the end of the string. -/
def matchesImageUrl (v : String) : Bool :=
  let tailOk (rest : List Char) : Bool := !rest.isEmpty && rest.all (fun c => !isLineTerminator c)
  let cs := v.data
  ("http://".data.isPrefixOf cs && tailOk (cs.drop 7)) ||
  ("https://".data.isPrefixOf cs && tailOk (cs.drop 8))

/-! ## The Story schema (`models/Story.js`) -/

abbrev ObjectId := Nat

/-- A JSON number of a coordinate pair, kept as the decimal `mantissa * 10 ^ exponent`. -/
structure Num where
  mantissa : Int
  exponent : Int
deriving DecidableEq, Repr

structure Location where
  type : Option String
  coordinates : Option (List Num)
  address : Option String
deriving DecidableEq, Repr

structure Comment where
  user : ObjectId
  text : Option String
  createdAt : Nat
deriving DecidableEq, Repr

structure Story where
  _id : ObjectId
  title : Option String
  content : Option String
  location : Location
  images : List String
  author : ObjectId
  likes : List ObjectId
  comments : List Comment
  tags : List String
  createdAt : Nat
  updatedAt : Nat
deriving DecidableEq, Repr

/-- The `required` check of a String path: present and of non-zero length. -/
def requiredString (v : Option String) : Bool :=
  match v with
  | none => false
  | some s => decide (0 < jsLength s)

/-- The `minlength` check of a String path; an absent value passes. -/
def minlength (n : Nat) (v : Option String) : Bool :=
  match v with
  | none => true
  | some s => decide (n ≤ jsLength s)

/-- The `enum` check of a String path; an absent value passes. -/
def enumOf (allowed : List String) (v : Option String) : Bool :=
  match v with
  | none => true
  | some s => allowed.contains s

/-- The `required` check of an array path: a non-empty array. -/
def requiredArray {α : Type} (v : Option (List α)) : Bool :=
  match v with
  | none => false
  | some l => !l.isEmpty

/-- Validation of one comment subdocument: `text` is required (`user` is always set). -/
def validateComment (c : Comment) : Bool := requiredString c.text

/-- The schema's validators in declaration order; the result is the list of failing
paths, each named by path and validator (Mongoose words its messages at greater
length), empty when the document is valid. -/
def validationErrors (s : Story) : List String :=
  (if requiredString s.title then [] else ["title: required"]) ++
  (if minlength 3 s.title then [] else ["title: minlength"]) ++
  (if requiredString s.content then [] else ["content: required"]) ++
  (if minlength 10 s.content then [] else ["content: minlength"]) ++
  (if requiredString s.location.type then [] else ["location.type: required"]) ++
  (if enumOf ["Point"] s.location.type then [] else ["location.type: enum"]) ++
  (if requiredArray s.location.coordinates then [] else ["location.coordinates: required"]) ++
  (if requiredString s.location.address then [] else ["location.address: required"]) ++
  (if s.images.all matchesImageUrl then [] else ["images: Invalid image URL"]) ++
  (if s.comments.all validateComment then [] else ["comments.text: required"])

/-! ## Exceptions, responses and the environment -/

/-- What a `try` block can throw: a Mongoose validation error, a store (driver) error, a
`SyntaxError` of the `RegExp` constructor (`regexp`), or a Mongoose `CastError` raised
while a query is prepared (`cast`). -/
inductive Err where
  | validation (msg : String)
  | store (msg : String)
  | regexp (msg : String)
  | cast (msg : String)
deriving DecidableEq, Repr

def Err.message : Err → String
  | .validation m => m
  | .store m => m
  | .regexp m => m
  | .cast m => m

/-- The public fields `populate(path, 'username profilePicture')` selects. -/
structure UserDoc where
  _id : ObjectId
  username : String
  profilePicture : String
deriving DecidableEq, Repr

/-- A reference path in a response: the bare id, or what `populate` put in its place
(`null` when no user carries the id). -/
inductive Ref where
  | id (i : ObjectId)
  | populated (u : Option UserDoc)
deriving DecidableEq, Repr

/-- The id a reference shows to the client. -/
def Ref.shownId : Ref → Option ObjectId
  | .id i => some i
  | .populated u => u.map (fun d => d._id)

structure CommentView where
  user : Ref
  text : Option String
  createdAt : Nat
deriving DecidableEq, Repr

/-- A story as serialised in a response. -/
structure StoryView where
  _id : ObjectId
  title : Option String
  content : Option String
  location : Location
  images : List String
  author : Ref
  likes : List ObjectId
  comments : List CommentView
  tags : List String
  createdAt : Nat
  updatedAt : Nat
deriving DecidableEq, Repr

inductive ResBody where
  | story (v : StoryView)
  | stories (l : List StoryView)
  | message (m : String)
deriving DecidableEq, Repr

structure Response where
  status : Nat
  body : ResBody
deriving DecidableEq, Repr

/-- The store operations the handlers await. -/
inductive StoreOp where
  | find
  | findById
  | save
  | remove
  | populate
deriving DecidableEq, Repr

/-- What a handler obtains from outside the request. -/
structure Env where
  /-- The clock, `Date.now()`. -/
  now : Nat
  /-- The id the driver generates for `new Story(...)`. -/
  newId : ObjectId
  /-- The store operations that throw, with the driver's message: the store is out of
  reach, or it refuses what it is asked. -/
  fault : StoreOp → Option String
  /-- The `users` collection: username and profile picture by id. -/
  users : ObjectId → Option (String × String)
  /-- Whether the `2dsphere` index on `location` (`storySchema.index`) can index the
  location; the store refuses to write a document it cannot index. -/
  indexAccepts : Location → Bool

/-! ## The collection -/

def findById (docs : List Story) (id : ObjectId) : Option Story :=
  docs.find? (fun d => d._id == id)

/-- Rewrite the first document carrying the id of `s` (an update by `_id`). -/
def replaceDoc : List Story → Story → List Story
  | [], _ => []
  | d :: ds, s => if d._id == s._id then s :: ds else d :: replaceDoc ds s

/-- Delete the first document carrying the id (a delete by `_id`). -/
def removeDoc : List Story → ObjectId → List Story
  | [], _ => []
  | d :: ds, id => if d._id == id then ds else d :: removeDoc ds id

/-- An awaited store operation: throws when the environment says so. -/
def storeFault (env : Env) (op : StoreOp) : Except Err Unit :=
  match env.fault op with
  | some m => .error (.store m)
  | none => .ok ()

/-- The validation step of `save()`. -/
def validate (s : Story) : Except Err Unit :=
  if validationErrors s = [] then .ok ()
  else .error (.validation ("Story validation failed: " ++ ", ".intercalate (validationErrors s)))

/-- The write of a document by the store: it may fail as a whole, and it is refused
when the `2dsphere` index cannot index the location. -/
def storeWrite (env : Env) (s : Story) : Except Err Unit :=
  match storeFault env .save with
  | .error e => .error e
  | .ok _ =>
    if env.indexAccepts s.location then .ok ()
    else .error (.store "Can't extract geo keys")

/-- The call `story.save()`: validate the document, then write it. A new document is
inserted with both timestamps (a taken id is a duplicate-key error of the store); a
loaded document is rewritten, with `updatedAt` refreshed, when it differs from what
is stored, and nothing is written when it does not. -/
def save (env : Env) (docs : List Story) (s : Story) (isNew : Bool) :
    Except Err Story × List Story :=
  match validate s with
  | .error e => (.error e, docs)
  | .ok _ =>
    if isNew then
      match storeWrite env s with
      | .error e => (.error e, docs)
      | .ok _ =>
        match findById docs s._id with
        | some _ => (.error (.store "E11000 duplicate key error"), docs)
        | none =>
          let stored := { s with createdAt := env.now, updatedAt := env.now }
          (.ok stored, docs ++ [stored])
    else if findById docs s._id = some s then (.ok s, docs)
    else
      match storeWrite env s with
      | .error e => (.error e, docs)
      | .ok _ =>
        let stored := { s with updatedAt := env.now }
        (.ok stored, replaceDoc docs stored)

/-! ## Serialisation and `populate` -/

def Comment.view (c : Comment) : CommentView :=
  { user := .id c.user, text := c.text, createdAt := c.createdAt }

def Story.view (s : Story) : StoryView :=
  { _id := s._id, title := s.title, content := s.content, location := s.location,
    images := s.images, author := .id s.author, likes := s.likes,
    comments := s.comments.map Comment.view, tags := s.tags,
    createdAt := s.createdAt, updatedAt := s.updatedAt }

/-- Replace a bare id by the user document carrying it, or by `null`. -/
def resolve (env : Env) : Ref → Ref
  | .id i => .populated ((env.users i).map (fun p => { _id := i, username := p.1, profilePicture := p.2 }))
  | .populated u => .populated u

/-- The call `populate('author', 'username profilePicture')`. -/
def populateAuthor (env : Env) (v : StoryView) : Except Err StoryView :=
  match storeFault env .populate with
  | .error e => .error e
  | .ok _ => .ok { v with author := resolve env v.author }

/-- The call `populate('comments.user', 'username profilePicture')`; with no comment
there is no user to read and the store is not asked. -/
def populateCommentUsers (env : Env) (v : StoryView) : Except Err StoryView :=
  if v.comments.isEmpty then .ok v
  else
    match storeFault env .populate with
    | .error e => .error e
    | .ok _ => .ok { v with comments := v.comments.map (fun c => { c with user := resolve env c.user }) }

/-! ## Request bodies -/

/-- A parsed JSON body: the five schema paths a client may send, and every other key
with its raw JSON text. -/
structure Body where
  title : Option String
  content : Option String
  location : Option Location
  images : Option (List String)
  tags : Option (List String)
  others : List (String × String)
deriving DecidableEq, Repr

/-- The keys of the body, `Object.keys(req.body)`. The handler only asks whether every
key is an allowed one and assigns each allowed key to its own path, so the order of
the keys plays no part. -/
def Body.keys (b : Body) : List String :=
  (if b.title.isSome then ["title"] else []) ++
  (if b.content.isSome then ["content"] else []) ++
  (if b.location.isSome then ["location"] else []) ++
  (if b.images.isSome then ["images"] else []) ++
  (if b.tags.isSome then ["tags"] else []) ++
  b.others.map (fun kv => kv.1)

/-- The setter of a String path declared with `trim: true`. -/
def castTrimmed (v : Option String) : Option String := v.map trim

/-- The setter of `tags`: an array (empty by default) of trimmed strings. -/
def castTags (v : Option (List String)) : List String := (v.getD []).map trim

/-- The setter of `images`: an array, empty by default. -/
def castImages (v : Option (List String)) : List String := v.getD []

/-- The setter of the nested path `location`. -/
def castLocation (v : Option Location) : Location :=
  v.getD { type := none, coordinates := none, address := none }

/-! ## The handlers (`routes/stories.js`) -/

/-- The document `new Story({ title, content, location, images, tags, author })`: the
five destructured fields of the body and the caller as author. -/
def newStory (env : Env) (caller : ObjectId) (body : Body) : Story :=
  { _id := env.newId
    title := castTrimmed body.title
    content := body.content
    location := castLocation body.location
    images := castImages body.images
    tags := castTags body.tags
    author := caller
    likes := []
    comments := []
    createdAt := env.now
    updatedAt := env.now }

/-- The try block of `router.post('/')`. -/
def createTry (env : Env) (docs : List Story) (caller : ObjectId) (body : Body) :
    Except Err Response × List Story :=
  match save env docs (newStory env caller body) true with
  | (.error e, docs1) => (.error e, docs1)
  | (.ok saved, docs1) =>
    match populateAuthor env saved.view with
    | .error e => (.error e, docs1)
    | .ok v => (.ok { status := 201, body := .story v }, docs1)

/-- Create a new story: `router.post('/')`. -/
def create (env : Env) (docs : List Story) (caller : ObjectId) (body : Body) :
    Response × List Story :=
  match createTry env docs caller body with
  | (.ok res, docs1) => (res, docs1)
  | (.error e, docs1) => ({ status := 400, body := .message e.message }, docs1)

def allowedUpdates : List String := ["title", "content", "location", "images", "tags"]

/-- One step of `updates.forEach(update => story[update] = req.body[update])`. The
handler has returned before this loop when a key is not an allowed one. -/
def assign (body : Body) (story : Story) (update : String) : Story :=
  if update = "title" then { story with title := castTrimmed body.title }
  else if update = "content" then { story with content := body.content }
  else if update = "location" then { story with location := castLocation body.location }
  else if update = "images" then { story with images := castImages body.images }
  else if update = "tags" then { story with tags := castTags body.tags }
  else story

/-- The try block of `router.patch('/:id')`. The test
`story.author.toString() !== req.user._id.toString()` compares the renderings of two
ids, that is the ids. -/
def patchTry (env : Env) (docs : List Story) (caller : ObjectId) (id : ObjectId)
    (body : Body) : Except Err Response × List Story :=
  match storeFault env .findById with
  | .error e => (.error e, docs)
  | .ok _ =>
    match findById docs id with
    | none => (.ok { status := 404, body := .message "Story not found" }, docs)
    | some story =>
      if story.author ≠ caller then
        (.ok { status := 403, body := .message "Not authorized to update this story" }, docs)
      else
        let updates := body.keys
        let isValidOperation := updates.all (fun update => allowedUpdates.contains update)
        if !isValidOperation then
          (.ok { status := 400, body := .message "Invalid updates" }, docs)
        else
          match save env docs (updates.foldl (assign body) story) false with
          | (.error e, docs1) => (.error e, docs1)
          | (.ok saved, docs1) => (.ok { status := 200, body := .story saved.view }, docs1)

/-- Update a story: `router.patch('/:id')`. -/
def patch (env : Env) (docs : List Story) (caller : ObjectId) (id : ObjectId)
    (body : Body) : Response × List Story :=
  match patchTry env docs caller id body with
  | (.ok res, docs1) => (res, docs1)
  | (.error e, docs1) => ({ status := 400, body := .message e.message }, docs1)

/-- The try block of `router.delete('/:id')`. -/
def deleteTry (env : Env) (docs : List Story) (caller : ObjectId) (id : ObjectId) :
    Except Err Response × List Story :=
  match storeFault env .findById with
  | .error e => (.error e, docs)
  | .ok _ =>
    match findById docs id with
    | none => (.ok { status := 404, body := .message "Story not found" }, docs)
    | some story =>
      if story.author ≠ caller then
        (.ok { status := 403, body := .message "Not authorized to delete this story" }, docs)
      else
        match storeFault env .remove with
        | .error e => (.error e, docs)
        | .ok _ => (.ok { status := 200, body := .message "Story deleted" }, removeDoc docs story._id)

/-- Delete a story: `router.delete('/:id')`. -/
def delete (env : Env) (docs : List Story) (caller : ObjectId) (id : ObjectId) :
    Response × List Story :=
  match deleteTry env docs caller id with
  | (.ok res, docs1) => (res, docs1)
  | (.error e, docs1) => ({ status := 500, body := .message e.message }, docs1)

/-- The method `likes.indexOf(id)` of a Mongoose array: the first position holding the
id, `none` for `-1`. -/
def indexOf (likes : List ObjectId) (id : ObjectId) : Option Nat :=
  if List.indexOf id likes < likes.length then some (List.indexOf id likes) else none

/-- The like toggle of `router.post('/:id/like')`: push when absent, splice out the
found position otherwise. -/
def toggle (likes : List ObjectId) (caller : ObjectId) : List ObjectId :=
  match indexOf likes caller with
  | none => likes ++ [caller]
  | some likeIndex => likes.eraseIdx likeIndex

/-- The try block of `router.post('/:id/like')`. -/
def likeTry (env : Env) (docs : List Story) (caller : ObjectId) (id : ObjectId) :
    Except Err Response × List Story :=
  match storeFault env .findById with
  | .error e => (.error e, docs)
  | .ok _ =>
    match findById docs id with
    | none => (.ok { status := 404, body := .message "Story not found" }, docs)
    | some story =>
      match save env docs { story with likes := toggle story.likes caller } false with
      | (.error e, docs1) => (.error e, docs1)
      | (.ok saved, docs1) => (.ok { status := 200, body := .story saved.view }, docs1)

/-- Like or unlike a story: `router.post('/:id/like')`. -/
def like (env : Env) (docs : List Story) (caller : ObjectId) (id : ObjectId) :
    Response × List Story :=
  match likeTry env docs caller id with
  | (.ok res, docs1) => (res, docs1)
  | (.error e, docs1) => ({ status := 400, body := .message e.message }, docs1)

/-- The subdocument Mongoose builds from `{ user, text }`: `text` trimmed, `createdAt`
defaulting to now. -/
def newComment (env : Env) (caller : ObjectId) (text : Option String) : Comment :=
  { user := caller, text := castTrimmed text, createdAt := env.now }

/-- The try block of `router.post('/:id/comments')`; `text` is `req.body.text`. -/
def commentTry (env : Env) (docs : List Story) (caller : ObjectId) (id : ObjectId)
    (text : Option String) : Except Err Response × List Story :=
  match storeFault env .findById with
  | .error e => (.error e, docs)
  | .ok _ =>
    match findById docs id with
    | none => (.ok { status := 404, body := .message "Story not found" }, docs)
    | some story =>
      match save env docs { story with comments := story.comments ++ [newComment env caller text] } false with
      | (.error e, docs1) => (.error e, docs1)
      | (.ok saved, docs1) =>
        match populateCommentUsers env saved.view with
        | .error e => (.error e, docs1)
        | .ok v => (.ok { status := 201, body := .story v }, docs1)

/-- Add a comment: `router.post('/:id/comments')`. -/
def comment (env : Env) (docs : List Story) (caller : ObjectId) (id : ObjectId)
    (text : Option String) : Response × List Story :=
  match commentTry env docs caller id text with
  | (.ok res, docs1) => (res, docs1)
  | (.error e, docs1) => ({ status := 400, body := .message e.message }, docs1)

/-! ## Listing: query construction (`router.get('/')`) -/

/-- The value of a character as a digit of the radix, if it is one. -/
def digitValue (radix : Nat) (c : Char) : Option Nat :=
  let n := c.toNat
  let v : Option Nat :=
    if 48 ≤ n ∧ n ≤ 57 then some (n - 48)
    else if 97 ≤ n ∧ n ≤ 122 then some (n - 87)
    else if 65 ≤ n ∧ n ≤ 90 then some (n - 55)
    else none
  v.filter (fun d => decide (d < radix))

/-- The value of a digit string in the radix, most significant digit first. -/
def digitsValue (radix : Nat) (cs : List Char) : Nat :=
  cs.foldl (fun acc c => acc * radix + (digitValue radix c).getD 0) 0

/-- The values `parseInt` returns and what multiplying them by an integer gives: `NaN`,
an infinity, or an integer-valued double with its sign (`integer true 0` is `-0`). -/
inductive JsNumber where
  | nan
  | infinity (negative : Bool)
  | integer (negative : Bool) (magnitude : Nat)
deriving DecidableEq, Repr

/-- The number of binary digits of `n`, counted in at most `fuel` halvings (`bitLength n n`
is the number of binary digits of `n`). -/
def bitLength : Nat → Nat → Nat
  | 0, _ => 0
  | fuel + 1, n => if n = 0 then 0 else bitLength fuel (n / 2) + 1

/-- Rounding of a natural number to the nearest number with at most 53 significant
binary digits, a tie going to the even significand (IEEE 754 round-to-nearest-even). -/
def roundTo53 (n : Nat) : Nat :=
  if n < 2 ^ 53 then n
  else
    let e := bitLength n n - 53
    let q := n / 2 ^ e
    let r := n % 2 ^ e
    let up := decide (2 ^ (e - 1) < r) || (decide (r = 2 ^ (e - 1)) && decide (q % 2 = 1))
    (if up then q + 1 else q) * 2 ^ e

/-- The number `2 ^ 1024`, the least power of two that is not a finite double. -/
def doubleLimit : Nat :=
  0x10000000000000000000000000000000000000000000000000000000000000000000000000000000000000000000000000000000000000000000000000000000000000000000000000000000000000000000000000000000000000000000000000000000000000000000000000000000000000000000000000000000000000000

/-- The double nearest to a signed natural number; from `2 ^ 1024` on it is an infinity. -/
def JsNumber.ofNat (negative : Bool) (n : Nat) : JsNumber :=
  if roundTo53 n < doubleLimit then .integer negative (roundTo53 n) else .infinity negative

/-- The product `x * k` of a number by a positive integer constant, computed in doubles. -/
def JsNumber.times (x : JsNumber) (k : Nat) : JsNumber :=
  match x with
  | .nan => .nan
  | .infinity negative => .infinity negative
  | .integer negative magnitude => JsNumber.ofNat negative (magnitude * k)

/-- The global `parseInt(string)` with no radix argument: leading white space is skipped,
a sign is read, a `0x` or `0X` prefix selects radix 16, and the longest run of digits
is the value, rounded to a double; without a digit the result is `NaN`. Everything
after the run of digits is ignored. -/
def parseInt (s : String) : JsNumber :=
  let s1 := trimStart s.data
  let negative := s1.head? = some '-'
  let s2 := if s1.head? = some '-' ∨ s1.head? = some '+' then s1.drop 1 else s1
  let hex := ['0', 'x'].isPrefixOf s2 || ['0', 'X'].isPrefixOf s2
  let radix := if hex then 16 else 10
  let s3 := if hex then s2.drop 2 else s2
  let z := s3.takeWhile (fun c => (digitValue radix c).isSome)
  if z.isEmpty then .nan
  else JsNumber.ofNat (decide negative) (digitsValue radix z)

/-- The query string of a list request, `req.query`. -/
structure ListParams where
  lat : Option String
  lng : Option String
  radius : Option String
  search : Option String
deriving DecidableEq, Repr

/-- JavaScript truthiness of a query parameter: it is there and is not the empty string. -/
def truthy (v : Option String) : Bool :=
  match v with
  | none => false
  | some s => !s.data.isEmpty

/-- The values `parseFloat` returns: `NaN`, an infinity, or a finite number. -/
inductive JsFloat where
  | nan
  | infinity (negative : Bool)
  | finite (x : Num)
deriving DecidableEq, Repr

/-- The object `{ type: 'Point', coordinates: [..] }`. -/
structure Geometry where
  type : String
  coordinates : List JsFloat
deriving DecidableEq, Repr

/-- The operator `$near` with its `$geometry` and `$maxDistance`. -/
structure Near where
  geometry : Geometry
  maxDistance : JsNumber
deriving DecidableEq, Repr

/-- A regular expression with its flags. -/
structure Regex where
  pattern : String
  options : String
deriving DecidableEq, Repr

/-- One alternative of the `$or` array. -/
inductive Cond where
  | title (r : Regex)
  | content (r : Regex)
  | tagsIn (rs : List Regex)
deriving DecidableEq, Repr

/-- The filter document handed to `Story.find`. -/
structure Query where
  location : Option Near
  or : Option (List Cond)
deriving DecidableEq, Repr

/-- The object `{ createdAt: -1 }`. -/
structure SortSpec where
  createdAt : Int
deriving DecidableEq, Repr

/-- The query `Story.find(filter).sort(sort)`. -/
structure FindRequest where
  filter : Query
  sort : Option SortSpec
deriving DecidableEq, Repr

/-- What the handler takes from the JavaScript runtime and the query engine without
this development looking inside. -/
structure Caps where
  /-- The global `parseFloat`. -/
  parseFloat : String → JsFloat
  /-- Whether `new RegExp(pattern, 'i')` accepts the pattern. -/
  regexCompiles : String → Bool
  /-- Whether the regular expression matches somewhere in the subject. -/
  regexTest : Regex → String → Bool
  /-- Whether a location satisfies the proximity operator. -/
  near : Near → Location → Bool
  /-- The order of the results of a query that requests no sort. -/
  nativeOrder : Query → List Story → List Story

/-- The filter built by `router.get('/')`; `new RegExp(search, 'i')` may throw. -/
def buildQuery (caps : Caps) (q : ListParams) : Except Err Query :=
  let location : Option Near :=
    if truthy q.lat && truthy q.lng && truthy q.radius then
      some { geometry := { type := "Point"
                           coordinates := [caps.parseFloat (q.lng.getD ""), caps.parseFloat (q.lat.getD "")] }
             maxDistance := (parseInt (q.radius.getD "")).times 1000 }
    else none
  if truthy q.search then
    let search := q.search.getD ""
    if caps.regexCompiles search then
      .ok { location := location
            or := some [ .title { pattern := search, options := "i" },
                         .content { pattern := search, options := "i" },
                         .tagsIn [{ pattern := search, options := "i" }] ] }
    else .error (.regexp "Invalid regular expression")
  else .ok { location := location, or := none }

/-- The query `Story.find(query).populate(..).sort({ createdAt: -1 })` of the handler. -/
def listRequest (caps : Caps) (q : ListParams) : Except Err FindRequest :=
  match buildQuery caps q with
  | .error e => .error e
  | .ok query => .ok { filter := query, sort := some { createdAt := -1 } }

/-! ## Listing: the query engine -/

/-- Whether a story satisfies one alternative of `$or`. -/
def Cond.holds (caps : Caps) (s : Story) : Cond → Bool
  | .title r => match s.title with
    | none => false
    | some t => caps.regexTest r t
  | .content r => match s.content with
    | none => false
    | some t => caps.regexTest r t
  | .tagsIn rs => s.tags.any (fun tag => rs.any (fun r => caps.regexTest r tag))

/-- Whether a story satisfies the filter: every top-level key must hold. -/
def accepts (caps : Caps) (query : Query) (s : Story) : Bool :=
  (match query.location with
   | none => true
   | some near => caps.near near s.location) &&
  (match query.or with
   | none => true
   | some conds => conds.any (fun c => c.holds caps s))

/-- The order of the results: by `createdAt` when a sort is requested, the engine's own
order otherwise. -/
def applySort (caps : Caps) (req : FindRequest) (l : List Story) : List Story :=
  match req.sort with
  | none => caps.nativeOrder req.filter l
  | some spec =>
    if spec.createdAt < 0 then l.insertionSort (fun a b => b.createdAt ≤ a.createdAt)
    else l.insertionSort (fun a b => a.createdAt ≤ b.createdAt)

/-- The casting of the filter by Mongoose before the store is asked: a `NaN` as
`$maxDistance` or as a coordinate of `$geometry` is a `CastError`. -/
def castQuery (query : Query) : Except Err Unit :=
  match query.location with
  | none => .ok ()
  | some near =>
    if near.maxDistance = .nan ∨ JsFloat.nan ∈ near.geometry.coordinates then
      .error (.cast "Cast to number failed")
    else .ok ()

/-- Execution of a find request against the collection. -/
def execFind (caps : Caps) (env : Env) (docs : List Story) (req : FindRequest) :
    Except Err (List Story) :=
  match castQuery req.filter with
  | .error e => .error e
  | .ok _ =>
    match storeFault env .find with
    | .error e => .error e
    | .ok _ => .ok (applySort caps req (docs.filter (accepts caps req.filter)))

/-- The try block of `router.get('/')`. -/
def listTry (caps : Caps) (env : Env) (docs : List Story) (q : ListParams) :
    Except Err Response :=
  match listRequest caps q with
  | .error e => .error e
  | .ok req =>
    match execFind caps env docs req with
    | .error e => .error e
    | .ok stories =>
      if stories.isEmpty then .ok { status := 200, body := .stories [] }
      else
        match storeFault env .populate with
        | .error e => .error e
        | .ok _ =>
          .ok { status := 200
                body := .stories (stories.map (fun s => { s.view with author := resolve env s.view.author })) }

/-- Get all stories with optional filters: `router.get('/')`. -/
def list (caps : Caps) (env : Env) (docs : List Story) (q : ListParams) : Response :=
  match listTry caps env docs q with
  | .ok res => res
  | .error e => { status := 500, body := .message e.message }

/-- The try block of `router.get('/:id')`. -/
def getTry (env : Env) (docs : List Story) (id : ObjectId) : Except Err Response :=
  match storeFault env .findById with
  | .error e => .error e
  | .ok _ =>
    match findById docs id with
    | none => .ok { status := 404, body := .message "Story not found" }
    | some story =>
      match populateAuthor env story.view with
      | .error e => .error e
      | .ok v1 =>
        match populateCommentUsers env v1 with
        | .error e => .error e
        | .ok v2 => .ok { status := 200, body := .story v2 }

/-- Get a specific story: `router.get('/:id')`. -/
def get (env : Env) (docs : List Story) (id : ObjectId) : Response :=
  match getTry env docs id with
  | .ok res => res
  | .error e => { status := 500, body := .message e.message }

/-! ## Sample data -/

def sampleUsers : ObjectId → Option (String × String) :=
  fun i => if i = 1 then some ("ana", "ana.png") else if i = 2 then some ("bo", "bo.png") else none

/-- An environment in which no store operation fails. -/
def calmEnv : Env :=
  { now := 100, newId := 10, fault := fun _ => none, users := sampleUsers
    indexAccepts := fun loc => decide (2 ≤ (loc.coordinates.getD []).length) }

def sampleStory : Story :=
  { _id := 7
    title := some "Old town"
    content := some "A walk through the old town"
    location := { type := some "Point"
                  coordinates := some [{ mantissa := -750, exponent := -1 }, { mantissa := 400, exponent := -1 }]
                  address := some "Main St" }
    images := ["https://img.example/a.png"]
    author := 1
    likes := []
    comments := []
    tags := ["walk"]
    createdAt := 50
    updatedAt := 50 }

def sampleDocs : List Story := [sampleStory]

/-- A body that renames the story and also tries to reassign its author. -/
def authorGrab : Body :=
  { title := some "Taken over", content := none, location := none, images := none,
    tags := none, others := [("author", "2")] }

/-! ## Further sample data and the specification-side readings -/

/-- A valid body that also carries an `author` and a `likes` key. -/
def forgedCreate : Body :=
  { title := some "  Harbour at dawn "
    content := some "Boats leaving before sunrise."
    location := some { type := some "Point"
                       coordinates := some [{ mantissa := 49, exponent := 0 }, { mantissa := 534, exponent := -1 }]
                       address := some "Pier 3" }
    images := some ["http://img.example/h.jpg"]
    tags := some [" sea "]
    others := [("author", "2"), ("likes", "[2]")] }

/-- A run of like requests on one story, each with its own environment and caller. -/
def likeAll (docs : List Story) (id : ObjectId) : List (Env × ObjectId) → List Story
  | [] => docs
  | call :: rest => likeAll (like call.1 docs call.2 id).2 id rest

/-- The sample story with three likes, user 2 among them. -/
def likedStory : Story := { sampleStory with likes := [1, 2, 3] }

/-- The sample story with two comments already on it. -/
def discussedStory : Story :=
  { sampleStory with
    comments := [{ user := 2, text := some "first", createdAt := 60 },
                 { user := 1, text := some "second", createdAt := 70 }] }

/-- An environment in which every store operation fails. -/
def downEnv : Env :=
  { calmEnv with fault := fun _ => some "connection lost" }

/-- An environment in which the store answers every read and fails every write. -/
def writeDownEnv : Env :=
  { calmEnv with fault := fun op =>
      if op = .save ∨ op = .remove then some "write failed" else none }

/-- An environment in which only queries over the collection fail. -/
def findDownEnv : Env :=
  { calmEnv with fault := fun op => if op = .find then some "query failed" else none }

/-- A body that only renames the story. -/
def retitle : Body :=
  { title := some "Old town at night", content := none, location := none, images := none,
    tags := none, others := [] }

/-- Whether the character is one of the decimal digits `0` to `9`. -/
def isDecimalDigit (c : Char) : Bool := decide (48 ≤ c.toNat ∧ c.toNat ≤ 57)

/-- A runtime and query engine for the examples: `parseFloat` knows two literals, every
pattern but `(` compiles, a pattern matches when it occurs in the subject up to case. -/
def sampleCaps : Caps :=
  { parseFloat := fun s =>
      if s = "40.0" then .finite { mantissa := 400, exponent := -1 }
      else if s = "-75.0" then .finite { mantissa := -750, exponent := -1 }
      else .nan
    regexCompiles := fun p => p != "("
    regexTest := fun r s =>
      decide (r.pattern.data.map Char.toLower <:+: s.data.map Char.toLower)
    near := fun _ _ => true
    nativeOrder := fun _ l => l }

/-- The request of the specification's example with a radius of ten kilometres. -/
def tenKm : ListParams :=
  { lat := some "40.0", lng := some "-75.0", radius := some "10", search := some "festival" }

/-- The same position with a radius of two and a half kilometres. -/
def twoAndAHalfKm : ListParams :=
  { lat := some "40.0", lng := some "-75.0", radius := some "2.5", search := none }

/-- The radius as the specification reads it: the decimal number of kilometres the
parameter spells, returned as its digits without the point and the number of digits
after the point (`2.5` is `(25, 1)`, that is `25 / 10 ^ 1`). -/
def requestedKm (s : String) : Option (Nat × Nat) :=
  let whole := s.data.takeWhile isDecimalDigit
  let rest := s.data.dropWhile isDecimalDigit
  if rest.isEmpty then
    (if whole.isEmpty then none else some (digitsValue 10 whole, 0))
  else if rest.head? = some '.' ∧ (rest.drop 1).all isDecimalDigit ∧ ¬ (whole ++ rest.drop 1).isEmpty then
    some (digitsValue 10 (whole ++ rest.drop 1), (rest.drop 1).length)
  else none

/-- The conversion as the specification states it: `meters` is the requested radius
`km.1 / 10 ^ km.2` multiplied by 1000. -/
def isKmTimes1000 (meters : Nat) (km : Nat × Nat) : Prop :=
  meters * 10 ^ km.2 = km.1 * 1000

/-- The text clause as the specification states it: the pattern matches, ignoring case,
the title or the content or at least one tag. -/
def textClause (caps : Caps) (search : String) (s : Story) : Bool :=
  let hit (subject : String) : Bool := caps.regexTest { pattern := search, options := "i" } subject
  (match s.title with
   | none => false
   | some t => hit t) ||
  (match s.content with
   | none => false
   | some t => hit t) ||
  s.tags.any hit

/-! ## Authorization of update and delete -/

/-- C1. For every stored story that the handler reads and every caller whose id differs
from the story's author, update and delete both answer 403 and leave the whole
collection, the record included, as it was, whatever the body holds. -/
theorem nonauthor_update_delete_forbidden (env : Env) (docs : List Story)
    (caller id : ObjectId) (body : Body) (story : Story)
    (hread : env.fault .findById = none)
    (hfound : findById docs id = some story)
    (hother : story.author ≠ caller) :
    (patch env docs caller id body).1.status = 403 ∧
    (patch env docs caller id body).2 = docs ∧
    (delete env docs caller id).1.status = 403 ∧
    (delete env docs caller id).2 = docs := by
  simp [patch, patchTry, delete, deleteTry, storeFault, hread, hfound, hother]

theorem nonauthor_update_delete_forbidden_witness :
    (patch calmEnv sampleDocs 2 7 authorGrab).1.status = 403 ∧
    (patch calmEnv sampleDocs 2 7 authorGrab).2 = sampleDocs ∧
    (delete calmEnv sampleDocs 2 7).1.status = 403 ∧
    (delete calmEnv sampleDocs 2 7).2 = sampleDocs :=
  nonauthor_update_delete_forbidden calmEnv sampleDocs 2 7 authorGrab sampleStory
    (by rfl) (by decide) (by decide)

/-- C2. For every stored story that the handler reads, when its author sends an update
whose body has a key outside title, content, location, images and tags, the answer is
400 and the collection is unchanged: nothing of the body is applied. -/
theorem update_rejects_foreign_key (env : Env) (docs : List Story)
    (caller id : ObjectId) (body : Body) (story : Story)
    (hread : env.fault .findById = none)
    (hfound : findById docs id = some story)
    (hauthor : story.author = caller)
    (hkey : ∃ k ∈ body.keys, k ∉ allowedUpdates) :
    (patch env docs caller id body).1 = { status := 400, body := .message "Invalid updates" } ∧
    (patch env docs caller id body).2 = docs := by
  simp [patch, patchTry, storeFault, hread, hfound, hauthor, hkey]

theorem update_rejects_foreign_key_witness :
    (patch calmEnv sampleDocs 1 7 authorGrab).1 = { status := 400, body := .message "Invalid updates" } ∧
    (patch calmEnv sampleDocs 1 7 authorGrab).2 = sampleDocs :=
  update_rejects_foreign_key calmEnv sampleDocs 1 7 authorGrab sampleStory
    (by rfl) (by decide) (by decide) ⟨"author", by decide, by decide⟩

/-! ## Creation -/

/-- Inserting a valid document under a new id succeeds and appends it. -/
theorem save_new (env : Env) (docs : List Story) (s : Story)
    (hvalid : validationErrors s = []) (hsave : env.fault .save = none)
    (hindex : env.indexAccepts s.location = true)
    (hfresh : findById docs s._id = none) :
    save env docs s true =
      (.ok { s with createdAt := env.now, updatedAt := env.now },
       docs ++ [{ s with createdAt := env.now, updatedAt := env.now }]) := by
  simp [save, validate, hvalid, storeWrite, storeFault, hsave, hindex, hfresh]

/-- C3. For every create request whose document passes validation (the store accepting
the write, its geospatial index accepting the location, and answering the populate,
the generated id being new), the answer is 201, exactly one story is appended to the
collection, its author is the caller, and the author shown in the returned story is
the caller's user record; no key of the body takes part in that. -/
theorem create_author_is_caller (env : Env) (docs : List Story) (caller : ObjectId)
    (body : Body) (account : String × String)
    (hvalid : validationErrors (newStory env caller body) = [])
    (hsave : env.fault .save = none)
    (hindex : env.indexAccepts (newStory env caller body).location = true)
    (hpopulate : env.fault .populate = none)
    (hfresh : findById docs env.newId = none)
    (huser : env.users caller = some account) :
    ∃ story view,
      (create env docs caller body).1 = { status := 201, body := .story view } ∧
      (create env docs caller body).2 = docs ++ [story] ∧
      story.author = caller ∧
      view.author.shownId = some caller ∧
      view.author = .populated (some { _id := caller, username := account.1, profilePicture := account.2 }) := by
  refine ⟨{ newStory env caller body with createdAt := env.now, updatedAt := env.now },
    { (newStory env caller body).view with author := resolve env (.id caller) }, ?_, ?_, ?_, ?_, ?_⟩
  · rw [create, createTry, save_new env docs _ hvalid hsave hindex hfresh]
    simp [populateAuthor, storeFault, hpopulate, Story.view, newStory]
  · rw [create, createTry, save_new env docs _ hvalid hsave hindex hfresh]
    simp [populateAuthor, storeFault, hpopulate]
  · rfl
  · simp [Story.view, resolve, huser, Ref.shownId]
  · simp [Story.view, resolve, huser]

theorem create_author_is_caller_witness :
    ∃ story view,
      (create calmEnv sampleDocs 1 forgedCreate).1 = { status := 201, body := .story view } ∧
      (create calmEnv sampleDocs 1 forgedCreate).2 = sampleDocs ++ [story] ∧
      story.author = 1 ∧
      view.author.shownId = some 1 ∧
      view.author = .populated (some { _id := 1, username := "ana", profilePicture := "ana.png" }) :=
  create_author_is_caller calmEnv sampleDocs 1 forgedCreate ("ana", "ana.png")
    (by decide) (by rfl) (by decide) (by rfl) (by decide) (by rfl)

/-! ## The collection: reading back what was written -/

theorem findById_id {docs : List Story} {id : ObjectId} {s : Story}
    (h : findById docs id = some s) : s._id = id := by
  have := List.find?_some h
  simpa using this

theorem findById_replaceDoc {docs : List Story} {s old : Story}
    (h : findById docs s._id = some old) : findById (replaceDoc docs s) s._id = some s := by
  induction docs with
  | nil => simp [findById] at h
  | cons d ds ih =>
    by_cases hd : d._id = s._id
    · simp [replaceDoc, findById, hd]
    · have h1 : findById ds s._id = some old := by
        simpa [findById, List.find?_cons, hd] using h
      have h2 := ih h1
      simp only [findById] at h2
      simp [replaceDoc, findById, List.find?_cons, hd, h2]

/-- A failed `save()` writes nothing. -/
theorem save_error {env : Env} {docs docs1 : List Story} {s : Story} {isNew : Bool} {e : Err}
    (h : save env docs s isNew = (.error e, docs1)) : docs1 = docs := by
  unfold save at h
  split at h
  · simp at h; exact h.2.symm
  · split at h
    · split at h
      · simp at h; exact h.2.symm
      · split at h
        · simp at h; exact h.2.symm
        · simp at h
    · split at h
      · simp at h
      · split at h
        · simp at h; exact h.2.symm
        · simp at h

/-- A successful `save()` of a loaded document: the document read back under its id is
the saved one, which is the given one up to `updatedAt`. -/
theorem save_loaded {env : Env} {docs docs1 : List Story} {s saved old : Story}
    (hold : findById docs s._id = some old)
    (h : save env docs s false = (.ok saved, docs1)) :
    findById docs1 s._id = some saved ∧
    (saved = s ∨ saved = { s with updatedAt := env.now }) := by
  unfold save at h
  split at h
  · simp at h
  · simp only [Bool.false_eq_true, if_false] at h
    split at h
    · rename_i hsame
      simp only [Prod.mk.injEq, Except.ok.injEq] at h
      obtain ⟨rfl, rfl⟩ := h
      exact ⟨hsame, Or.inl rfl⟩
    · split at h
      · simp at h
      · simp only [Prod.mk.injEq, Except.ok.injEq] at h
        obtain ⟨rfl, rfl⟩ := h
        refine ⟨?_, Or.inr rfl⟩
        exact findById_replaceDoc (s := { s with updatedAt := env.now }) hold

/-! ## Likes -/

theorem toggle_of_not_mem {likes : List ObjectId} {caller : ObjectId} (h : caller ∉ likes) :
    toggle likes caller = likes ++ [caller] := by
  have : ¬ List.indexOf caller likes < likes.length := by
    rw [List.indexOf_lt_length]; exact h
  simp [toggle, indexOf, this]

theorem toggle_of_mem {likes : List ObjectId} {caller : ObjectId} (h : caller ∈ likes) :
    toggle likes caller = likes.erase caller := by
  have : List.indexOf caller likes < likes.length := List.indexOf_lt_length.mpr h
  simp [toggle, indexOf, this]

theorem toggle_nodup {likes : List ObjectId} (caller : ObjectId) (h : likes.Nodup) :
    (toggle likes caller).Nodup := by
  by_cases hm : caller ∈ likes
  · rw [toggle_of_mem hm]; exact h.erase caller
  · rw [toggle_of_not_mem hm]
    exact List.nodup_append.mpr ⟨h, List.nodup_singleton caller, by simpa using hm⟩

theorem toggle_toggle_perm {likes : List ObjectId} (caller : ObjectId) (h : likes.Nodup) :
    (toggle (toggle likes caller) caller).Perm likes := by
  by_cases hm : caller ∈ likes
  · rw [toggle_of_mem hm, toggle_of_not_mem (h.not_mem_erase)]
    exact (List.perm_append_comm.trans (List.perm_cons_erase hm).symm)
  · rw [toggle_of_not_mem hm, toggle_of_mem (by simp), List.erase_append_right _ hm]
    simp

/-- One like request on a stored story: the story stays readable under its id, its
likes are those before or the toggled ones, and the toggled ones when the answer is 200. -/
theorem like_step (env : Env) (docs : List Story) (caller id : ObjectId) (story : Story)
    (hfound : findById docs id = some story) :
    ∃ after, findById (like env docs caller id).2 id = some after ∧
      (after.likes = story.likes ∨ after.likes = toggle story.likes caller) ∧
      ((like env docs caller id).1.status = 200 → after.likes = toggle story.likes caller) := by
  have hid := findById_id hfound
  cases hf : env.fault .findById with
  | some m => exact ⟨story, by simp [like, likeTry, storeFault, hf, hfound]⟩
  | none =>
    cases hs : save env docs { story with likes := toggle story.likes caller } false with
    | mk r docs1 =>
      cases r with
      | error e =>
        have := save_error hs
        subst this
        exact ⟨story, by simp [like, likeTry, storeFault, hf, hfound, hs]⟩
      | ok saved =>
        have hold : findById docs ({ story with likes := toggle story.likes caller } : Story)._id = some story := by
          simpa [hid] using hfound
        obtain ⟨hread, hsaved⟩ := save_loaded hold hs
        have hdocs : (like env docs caller id).2 = docs1 := by
          simp [like, likeTry, storeFault, hf, hfound, hs]
        have hread1 : findById docs1 id = some saved := by simpa [hid] using hread
        refine ⟨saved, ?_, ?_, ?_⟩
        · rw [hdocs]; exact hread1
        · right; rcases hsaved with h | h <;> simp [h]
        · intro _; rcases hsaved with h | h <;> simp [h]

theorem likeAll_nodup (calls : List (Env × ObjectId)) (docs : List Story) (id : ObjectId)
    (story : Story) (hfound : findById docs id = some story) (hnodup : story.likes.Nodup) :
    ∃ after, findById (likeAll docs id calls) id = some after ∧ after.likes.Nodup := by
  induction calls generalizing docs story with
  | nil => exact ⟨story, hfound, hnodup⟩
  | cons call rest ih =>
    obtain ⟨mid, hmid, hlikes, _⟩ := like_step call.1 docs call.2 id story hfound
    refine ih _ mid hmid ?_
    rcases hlikes with h | h
    · rw [h]; exact hnodup
    · rw [h]; exact toggle_nodup _ hnodup

/-- A created story is readable under the generated id and has no likes. -/
theorem create_likes_empty (env : Env) (docs : List Story) (caller : ObjectId) (body : Body)
    (h : (create env docs caller body).1.status = 201) :
    ∃ story, findById (create env docs caller body).2 env.newId = some story ∧ story.likes = [] := by
  cases hs : save env docs (newStory env caller body) true with
  | mk r docs1 =>
    cases r with
    | error e => simp [create, createTry, hs] at h
    | ok saved =>
      have hdocs : (create env docs caller body).2 = docs1 := by
        simp only [create, createTry, hs]
        cases populateAuthor env saved.view <;> rfl
      rw [hdocs]
      unfold save at hs
      split at hs
      · simp at hs
      · simp only [if_true] at hs
        split at hs
        · simp at hs
        · split at hs
          · simp at hs
          · rename_i hfresh
            simp only [Prod.mk.injEq, Except.ok.injEq] at hs
            obtain ⟨rfl, rfl⟩ := hs
            refine ⟨{ newStory env caller body with createdAt := env.now, updatedAt := env.now }, ?_, rfl⟩
            have hnone : List.find? (fun d => d._id == env.newId) docs = none := by
              simpa [findById, newStory] using hfresh
            simp [findById, List.find?_append, hnone, newStory]

/-- C4. For every stored story whose likes hold no user twice and for every caller, two
like requests in a row by that caller, both answered 200, leave the story with the
same users in its likes as before the first one (indeed with a rearrangement of the
same list), whether or not the caller had liked the story. -/
theorem like_twice_restores (env1 env2 : Env) (docs : List Story) (caller id : ObjectId)
    (story : Story)
    (hfound : findById docs id = some story)
    (hnodup : story.likes.Nodup)
    (hfirst : (like env1 docs caller id).1.status = 200)
    (hsecond : (like env2 (like env1 docs caller id).2 caller id).1.status = 200) :
    ∃ after, findById (like env2 (like env1 docs caller id).2 caller id).2 id = some after ∧
      (∀ user, user ∈ after.likes ↔ user ∈ story.likes) ∧
      after.likes.Perm story.likes := by
  obtain ⟨mid, hmid, _, hlikes1⟩ := like_step env1 docs caller id story hfound
  obtain ⟨after, hafter, _, hlikes2⟩ := like_step env2 _ caller id mid hmid
  have hperm : after.likes.Perm story.likes := by
    rw [hlikes2 hsecond, hlikes1 hfirst]
    exact toggle_toggle_perm caller hnodup
  exact ⟨after, hafter, fun user => hperm.mem_iff, hperm⟩

theorem like_twice_restores_witness :
    ∃ after, findById (like calmEnv (like calmEnv [likedStory] 2 7).2 2 7).2 7 = some after ∧
      (∀ user, user ∈ after.likes ↔ user ∈ likedStory.likes) ∧
      after.likes.Perm likedStory.likes :=
  like_twice_restores calmEnv calmEnv [likedStory] 2 7 likedStory
    (by decide) (by decide) (by decide) (by decide)

/-- C5. For every stored story whose likes hold no user twice: after one like request by
any caller, and after any run of like requests by any callers, whatever each one
answers, the story is still stored and its likes hold no user twice; and a story that
was just created (its likes are empty) keeps this through any run of like requests. -/
theorem likes_stay_nodup (docs : List Story) (id : ObjectId) (story : Story)
    (calls : List (Env × ObjectId))
    (hfound : findById docs id = some story)
    (hnodup : story.likes.Nodup) :
    (∀ env caller, ∃ after, findById (like env docs caller id).2 id = some after ∧
        after.likes.Nodup) ∧
    (∃ after, findById (likeAll docs id calls) id = some after ∧ after.likes.Nodup) ∧
    (∀ env0 docs0 author body, (create env0 docs0 author body).1.status = 201 →
      ∃ after, findById (likeAll (create env0 docs0 author body).2 env0.newId calls) env0.newId
          = some after ∧ after.likes.Nodup) := by
  refine ⟨fun env caller => ?_, likeAll_nodup calls docs id story hfound hnodup, ?_⟩
  · exact likeAll_nodup [(env, caller)] docs id story hfound hnodup
  · intro env0 docs0 author body hcreated
    obtain ⟨fresh, hfresh, hempty⟩ := create_likes_empty env0 docs0 author body hcreated
    exact likeAll_nodup calls _ _ fresh hfresh (by simp [hempty])

theorem likes_stay_nodup_witness :
    (∃ after, findById (like calmEnv [likedStory] 2 7).2 7 = some after ∧ after.likes.Nodup) ∧
    (∃ after, findById (likeAll [likedStory] 7 [(calmEnv, 2), (calmEnv, 4), (calmEnv, 2)]) 7
        = some after ∧ after.likes.Nodup) :=
  have h := likes_stay_nodup [likedStory] 7 likedStory [(calmEnv, 2), (calmEnv, 4), (calmEnv, 2)]
    (by decide) (by decide)
  ⟨h.1 calmEnv 2, h.2.1⟩

/-! ## Comments -/

/-- C9. For every stored story, every caller and every text, a comment request answered
201 leaves the story with its previous comments, unchanged and in their order, followed
by exactly one new comment: its user is the caller, its text the trimmed text of the
request, its date the time of the request; the returned story lists the same comments,
users resolved. -/
theorem comment_appends (env : Env) (docs : List Story) (caller id : ObjectId)
    (text : String) (story : Story)
    (hfound : findById docs id = some story)
    (hcreated : (comment env docs caller id (some text)).1.status = 201) :
    ∃ after view,
      findById (comment env docs caller id (some text)).2 id = some after ∧
      after.comments = story.comments ++
        [{ user := caller, text := some (trim text), createdAt := env.now }] ∧
      (comment env docs caller id (some text)).1.body = .story view ∧
      view.comments = after.comments.map (fun c =>
        { user := resolve env (.id c.user), text := c.text, createdAt := c.createdAt }) := by
  have hid := findById_id hfound
  cases hf : env.fault .findById with
  | some m => simp [comment, commentTry, storeFault, hf] at hcreated
  | none =>
    cases hs : save env docs
        { story with comments := story.comments ++ [newComment env caller (some text)] } false with
    | mk r docs1 =>
      cases r with
      | error e => simp [comment, commentTry, storeFault, hf, hfound, hs] at hcreated
      | ok saved =>
        have hold : findById docs ({ story with comments :=
            story.comments ++ [newComment env caller (some text)] } : Story)._id = some story := by
          simpa [hid] using hfound
        obtain ⟨hread, hsaved⟩ := save_loaded hold hs
        have hread1 : findById docs1 id = some saved := by simpa [hid] using hread
        have hcomments : saved.comments = story.comments ++
            [{ user := caller, text := some (trim text), createdAt := env.now }] := by
          rcases hsaved with h | h <;> simp [h, newComment, castTrimmed]
        have hsome : saved.view.comments.isEmpty = false := by
          simp [Story.view, hcomments]
        cases hp : env.fault .populate with
        | some m =>
          simp [comment, commentTry, storeFault, hf, hfound, hs, populateCommentUsers, hsome, hp]
            at hcreated
        | none =>
          obtain ⟨view, hview⟩ : ∃ view, populateCommentUsers env saved.view = .ok view ∧
              view.comments = saved.view.comments.map (fun c => { c with user := resolve env c.user }) :=
            by simp [populateCommentUsers, hsome, storeFault, hp]
          refine ⟨saved, view, ?_, hcomments, ?_, ?_⟩
          · have hdocs : (comment env docs caller id (some text)).2 = docs1 := by
              simp [comment, commentTry, storeFault, hf, hfound, hs, hview.1]
            rw [hdocs]; exact hread1
          · simp [comment, commentTry, storeFault, hf, hfound, hs, hview.1]
          · rw [hview.2]
            simp [Story.view, Comment.view, List.map_map, Function.comp_def, resolve]

theorem comment_appends_witness :
    ∃ after view,
      findById (comment calmEnv [discussedStory] 2 7 (some "  third one ")).2 7 = some after ∧
      after.comments = discussedStory.comments ++
        [{ user := 2, text := some (trim "  third one "), createdAt := calmEnv.now }] ∧
      (comment calmEnv [discussedStory] 2 7 (some "  third one ")).1.body = .story view ∧
      view.comments = after.comments.map (fun c =>
        { user := resolve calmEnv (.id c.user), text := c.text, createdAt := c.createdAt }) :=
  comment_appends calmEnv [discussedStory] 2 7 "  third one " discussedStory
    (by decide) (by decide)

/-! ## Store failures -/

/-- A failing read of the story: Get and Delete answer 500, Update, ToggleLike and
AddComment answer 400, each with the store's message, and nothing is written. -/
theorem read_failure_answers (env : Env) (docs : List Story) (caller id : ObjectId)
    (body : Body) (text : Option String) (m : String)
    (hread : env.fault .findById = some m) :
    get env docs id = { status := 500, body := .message m } ∧
    delete env docs caller id = ({ status := 500, body := .message m }, docs) ∧
    patch env docs caller id body = ({ status := 400, body := .message m }, docs) ∧
    like env docs caller id = ({ status := 400, body := .message m }, docs) ∧
    comment env docs caller id text = ({ status := 400, body := .message m }, docs) := by
  simp [get, getTry, delete, deleteTry, patch, patchTry, like, likeTry, comment, commentTry,
    storeFault, hread, Err.message]

/-- A failing write: Create answers 400 for a valid document the store fails to insert,
Delete answers 500 when the store fails to remove the author's story; nothing is
written. -/
theorem write_failure_answers (env : Env) (docs : List Story) (caller id : ObjectId)
    (body : Body) (story : Story) (m : String) :
    (validationErrors (newStory env caller body) = [] → env.fault .save = some m →
      create env docs caller body = ({ status := 400, body := .message m }, docs)) ∧
    (env.fault .findById = none → findById docs id = some story → story.author = caller →
      env.fault .remove = some m →
      delete env docs caller id = ({ status := 500, body := .message m }, docs)) := by
  constructor
  · intro hvalid hsave
    simp [create, createTry, save, validate, hvalid, storeWrite, storeFault, hsave, Err.message]
  · intro hread hfound hauthor hremove
    simp [delete, deleteTry, storeFault, hread, hfound, hauthor, hremove, Err.message]

/-- A failing query over the collection: List answers 500. -/
theorem find_failure_answers (caps : Caps) (env : Env) (docs : List Story) (q : ListParams)
    (m : String) (hfind : env.fault .find = some m) :
    (list caps env docs q).status = 500 := by
  unfold list listTry
  cases hr : listRequest caps q with
  | error e => rfl
  | ok req =>
    simp only [execFind]
    cases hc : castQuery req.filter with
    | error e => rfl
    | ok _ => simp [storeFault, hfind]

/-- C10. The claim asks status 500 for a store failure in every operation; the code gives
it in three of the seven. With every store operation failing, Get, List and Delete
answer 500 with the store's message, while Create, Update, ToggleLike and AddComment
answer 400 with it. With the reads served and only the writes failing, Create,
Update, ToggleLike and AddComment again answer 400 and Delete 500; with only the
query failing List answers 500. No failed request changes the collection. -/
theorem store_failure_answers :
    get downEnv sampleDocs 7 = { status := 500, body := .message "connection lost" } ∧
    list sampleCaps downEnv sampleDocs tenKm =
      { status := 500, body := .message "connection lost" } ∧
    delete downEnv sampleDocs 1 7 =
      ({ status := 500, body := .message "connection lost" }, sampleDocs) ∧
    create downEnv sampleDocs 1 forgedCreate =
      ({ status := 400, body := .message "connection lost" }, sampleDocs) ∧
    patch downEnv sampleDocs 1 7 retitle =
      ({ status := 400, body := .message "connection lost" }, sampleDocs) ∧
    like downEnv sampleDocs 2 7 =
      ({ status := 400, body := .message "connection lost" }, sampleDocs) ∧
    comment downEnv sampleDocs 2 7 (some "hello") =
      ({ status := 400, body := .message "connection lost" }, sampleDocs) ∧
    create writeDownEnv sampleDocs 1 forgedCreate =
      ({ status := 400, body := .message "write failed" }, sampleDocs) ∧
    patch writeDownEnv sampleDocs 1 7 retitle =
      ({ status := 400, body := .message "write failed" }, sampleDocs) ∧
    like writeDownEnv sampleDocs 2 7 =
      ({ status := 400, body := .message "write failed" }, sampleDocs) ∧
    comment writeDownEnv sampleDocs 2 7 (some "hello") =
      ({ status := 400, body := .message "write failed" }, sampleDocs) ∧
    delete writeDownEnv sampleDocs 1 7 =
      ({ status := 500, body := .message "write failed" }, sampleDocs) ∧
    list sampleCaps findDownEnv sampleDocs tenKm =
      { status := 500, body := .message "query failed" } := by
  decide

/-! ## Listing -/

theorem digit_not_whiteSpace {c : Char} (h : isDecimalDigit c = true) : isWhiteSpace c = false := by
  simp only [isDecimalDigit, decide_eq_true_eq] at h
  obtain ⟨h1, h2⟩ := h
  unfold isWhiteSpace
  generalize c.toNat = n at h1 h2
  interval_cases n <;> decide

theorem digit_value_isSome {c : Char} (h : isDecimalDigit c = true) :
    (digitValue 10 c).isSome = true := by
  simp only [isDecimalDigit, decide_eq_true_eq] at h
  have h3 : c.toNat - 48 < 10 := by omega
  simp [digitValue, h, Option.filter, h3]

theorem digit_ne_of_toNat {c d : Char} (h : isDecimalDigit c = true) (hd : isDecimalDigit d = false) :
    c ≠ d := by
  intro he; subst he; rw [h] at hd; exact absurd hd (by decide)

theorem takeWhile_digits (ds rest : List Char) (hds : ∀ c ∈ ds, isDecimalDigit c = true)
    (hrest : rest = [] ∨ rest.head? = some '.') :
    (ds ++ rest).takeWhile (fun c => (digitValue 10 c).isSome) = ds := by
  induction ds with
  | nil =>
    rcases hrest with h | h
    · simp [h]
    · cases rest with
      | nil => simp
      | cons r rs =>
        simp only [List.head?_cons, Option.some.injEq] at h
        subst h
        simp only [List.nil_append]
        rw [List.takeWhile_cons]
        have : (digitValue 10 '.').isSome = false := by decide
        simp [this]
  | cons d ds ih =>
    have hd := digit_value_isSome (hds d (by simp))
    simp only [List.cons_append]
    rw [List.takeWhile_cons, hd]
    simp only [if_true]
    rw [ih (fun c hc => hds c (by simp [hc]))]

theorem doubleLimit_eq : doubleLimit = 2 ^ 1024 := by
  norm_num [doubleLimit]

/-- Below `2 ^ 53` a natural number is a double. -/
theorem ofNat_exact (negative : Bool) (n : Nat) (h : n < 2 ^ 53) :
    JsNumber.ofNat negative n = .integer negative n := by
  have hlimit : n < doubleLimit := lt_trans h (by norm_num [doubleLimit])
  unfold JsNumber.ofNat roundTo53
  rw [if_pos h, if_pos hlimit]

/-- A whole number written in decimal digits, possibly followed by a fraction: `parseInt`
returns the double nearest to the whole number and drops the rest. -/
theorem parseInt_whole (ds rest : List Char) (hne : ds ≠ [])
    (hds : ∀ c ∈ ds, isDecimalDigit c = true)
    (hrest : rest = [] ∨ rest.head? = some '.') :
    parseInt (String.mk (ds ++ rest)) = JsNumber.ofNat false (digitsValue 10 ds) := by
  cases ds with
  | nil => exact absurd rfl hne
  | cons d ds =>
    have hd : isDecimalDigit d = true := hds d (by simp)
    have hws := digit_not_whiteSpace hd
    have hminus : d ≠ '-' := digit_ne_of_toNat hd (by decide)
    have hplus : d ≠ '+' := digit_ne_of_toNat hd (by decide)
    have hx : ∀ x : Char, isDecimalDigit x = false → x ≠ '.' →
        [('0' : Char), x].isPrefixOf (d :: (ds ++ rest)) = false := by
      intro x hxd hxdot
      cases ds with
      | nil =>
        rcases hrest with h | h
        · simp [h, List.isPrefixOf]
        · cases rest with
          | nil => simp [List.isPrefixOf]
          | cons r rs =>
            simp only [List.head?_cons, Option.some.injEq] at h
            subst h
            simp [List.isPrefixOf, hxdot]
      | cons e es =>
        have he : isDecimalDigit e = true := hds e (by simp)
        have : x ≠ e := fun h => by subst h; rw [he] at hxd; exact absurd hxd (by decide)
        simp [List.isPrefixOf, this]
    have hx1 := hx 'x' (by decide) (by decide)
    have hx2 := hx 'X' (by decide) (by decide)
    have htake := takeWhile_digits (d :: ds) rest hds hrest
    simp only [List.cons_append] at htake
    simp [parseInt, trimStart, List.dropWhile_cons, hws, hminus, hplus, hx1, hx2, htake]

/-- C6. A parameter counts as supplied when it is present and not empty. Whenever the
search pattern, if supplied, compiles, List builds a filter; its proximity clause is
present exactly when lat, lng and radius are all supplied, its text clause exactly when
search is supplied; a story passes the filter iff it passes the proximity clause (if
present) and the text clause (if present), the text clause being a case-insensitive
match of the pattern on the title, the content or some tag; with none of the four
supplied every story passes. -/
theorem list_filter_is_conjunction (caps : Caps) (q : ListParams)
    (hcompiles : truthy q.search = true → caps.regexCompiles (q.search.getD "") = true) :
    ∃ query, buildQuery caps q = .ok query ∧
      query.location.isSome = (truthy q.lat && truthy q.lng && truthy q.radius) ∧
      query.or.isSome = truthy q.search ∧
      (∀ s, accepts caps query s =
        ((match query.location with
          | none => true
          | some near => caps.near near s.location) &&
         (if truthy q.search then textClause caps (q.search.getD "") s else true))) ∧
      (truthy q.lat = false → truthy q.lng = false → truthy q.radius = false →
        truthy q.search = false → ∀ s, accepts caps query s = true) := by
  by_cases hsearch : truthy q.search = true
  · have hc := hcompiles hsearch
    refine ⟨_, by simp only [buildQuery, hsearch, hc, if_true]; rfl, ?_, ?_, ?_, ?_⟩
    · by_cases h3 : (truthy q.lat && truthy q.lng && truthy q.radius) = true <;> simp [h3]
    · simp [hsearch]
    · intro s
      simp [accepts, Cond.holds, textClause, hsearch, Bool.or_assoc]
    · intro _ _ _ h; rw [h] at hsearch; exact absurd hsearch (by decide)
  · have hs : truthy q.search = false := by simpa using hsearch
    refine ⟨_, by simp only [buildQuery, hs]; rfl, ?_, ?_, ?_, ?_⟩
    · by_cases h3 : (truthy q.lat && truthy q.lng && truthy q.radius) = true <;> simp [h3]
    · simp [hs]
    · intro s
      simp [accepts, hs]
    · intro h1 _ _ _ s
      simp [accepts, h1]

theorem list_filter_is_conjunction_witness :
    ∃ query, buildQuery sampleCaps tenKm = .ok query ∧
      query.location.isSome = (truthy tenKm.lat && truthy tenKm.lng && truthy tenKm.radius) ∧
      query.or.isSome = truthy tenKm.search ∧
      (∀ s, accepts sampleCaps query s =
        ((match query.location with
          | none => true
          | some near => sampleCaps.near near s.location) &&
         (if truthy tenKm.search then textClause sampleCaps (tenKm.search.getD "") s else true))) ∧
      (truthy tenKm.lat = false → truthy tenKm.lng = false → truthy tenKm.radius = false →
        truthy tenKm.search = false → ∀ s, accepts sampleCaps query s = true) :=
  list_filter_is_conjunction sampleCaps tenKm (by decide)

/-- C7. The claim asks a maximum distance of the requested radius in kilometers
multiplied by 1000. The code reads the radius with `parseInt`: for lat=40.0, lng=-75.0,
radius=2.5 it builds a proximity clause centred on [-75.0, 40.0], longitude first, with
a maximum distance of 2000 meters, while 2.5 kilometers multiplied by 1000 are 2500. -/
theorem fractional_radius_is_truncated :
    requestedKm "2.5" = some (25, 1) ∧
    buildQuery sampleCaps twoAndAHalfKm =
      .ok { location := some { geometry := { type := "Point"
                                             coordinates := [.finite { mantissa := -750, exponent := -1 },
                                                             .finite { mantissa := 400, exponent := -1 }] }
                               maxDistance := .integer false 2000 }
            or := none } ∧
    ¬ isKmTimes1000 2000 (25, 1) ∧
    isKmTimes1000 2500 (25, 1) :=
  ⟨by decide, by rfl, by unfold isKmTimes1000; decide, by unfold isKmTimes1000; decide⟩

/-- The part of the conversion that holds. For every List request in which lat, lng and
radius are all supplied (and the search pattern, if any, compiles), the proximity clause
is a Point with longitude first and latitude second, and its maximum distance is
`parseInt(radius) * 1000`; for a radius written as a whole number of kilometres,
possibly followed by a decimal fraction, with that number times 1000 below `2 ^ 53`,
it is that whole number multiplied by 1000, the fraction being dropped. -/
theorem proximity_clause_whole_km (caps : Caps) (q : ListParams)
    (hlat : truthy q.lat = true) (hlng : truthy q.lng = true)
    (hradius : truthy q.radius = true)
    (hcompiles : truthy q.search = true → caps.regexCompiles (q.search.getD "") = true) :
    ∃ query near, buildQuery caps q = .ok query ∧ query.location = some near ∧
      near.geometry = { type := "Point"
                        coordinates := [caps.parseFloat (q.lng.getD ""), caps.parseFloat (q.lat.getD "")] } ∧
      near.maxDistance = (parseInt (q.radius.getD "")).times 1000 ∧
      (∀ whole rest, (q.radius.getD "").data = whole ++ rest → whole ≠ [] →
        (∀ c ∈ whole, isDecimalDigit c = true) → (rest = [] ∨ rest.head? = some '.') →
        digitsValue 10 whole * 1000 < 2 ^ 53 →
        near.maxDistance = .integer false (digitsValue 10 whole * 1000)) := by
  have hmax : ∀ whole rest, (q.radius.getD "").data = whole ++ rest → whole ≠ [] →
      (∀ c ∈ whole, isDecimalDigit c = true) → (rest = [] ∨ rest.head? = some '.') →
      digitsValue 10 whole * 1000 < 2 ^ 53 →
      (parseInt (q.radius.getD "")).times 1000
        = .integer false (digitsValue 10 whole * 1000) := by
    intro whole rest hdata hne hds hrest hsmall
    have hstr : q.radius.getD "" = String.mk (whole ++ rest) := by
      rw [← hdata]
    have hwhole : digitsValue 10 whole < 2 ^ 53 := by omega
    rw [hstr, parseInt_whole whole rest hne hds hrest, ofNat_exact false _ hwhole]
    exact ofNat_exact false _ hsmall
  by_cases hsearch : truthy q.search = true
  · have hc := hcompiles hsearch
    exact ⟨_, _, by simp only [buildQuery, hsearch, hc, hlat, hlng, hradius, if_true]; rfl,
      rfl, rfl, rfl, hmax⟩
  · have hs : truthy q.search = false := by simpa using hsearch
    exact ⟨_, _, by simp only [buildQuery, hs, hlat, hlng, hradius]; rfl, rfl, rfl, rfl, hmax⟩

/-- The example of the specification: lat=40.0, lng=-75.0, radius=10 gives the centre
[-75.0, 40.0] and 10000 meters. -/
theorem proximity_clause_ten_km :
    ∃ query near, buildQuery sampleCaps tenKm = .ok query ∧ query.location = some near ∧
      near.geometry = { type := "Point"
                        coordinates := [.finite { mantissa := -750, exponent := -1 },
                                        .finite { mantissa := 400, exponent := -1 }] } ∧
      near.maxDistance = .integer false 10000 :=
  have ⟨query, near, hq, hloc, hgeo, _, hwhole⟩ :=
    proximity_clause_whole_km sampleCaps tenKm (by decide) (by decide) (by decide) (by decide)
  ⟨query, near, hq, hloc, hgeo,
    hwhole ['1', '0'] [] (by rfl) (by decide) (by decide) (Or.inl rfl) (by decide)⟩

/-- Beyond `2 ^ 53` the radius is rounded to a double before and after the
multiplication, as the code computes it. -/
theorem large_radius_is_rounded :
    parseInt "9007199254740993" = .integer false 9007199254740992 ∧
    (parseInt "9007199254740993").times 1000 = .integer false 9007199254740992000 :=
  ⟨by decide, by decide⟩

/-- The filter is built whenever the search pattern, if supplied, compiles; it has a
proximity clause exactly when lat, lng and radius are all truthy. -/
theorem buildQuery_ok (caps : Caps) (q : ListParams)
    (hcompiles : truthy q.search = true → caps.regexCompiles (q.search.getD "") = true) :
    ∃ query, buildQuery caps q = .ok query ∧
      query.location.isSome = (truthy q.lat && truthy q.lng && truthy q.radius) := by
  by_cases hsearch : truthy q.search = true
  · have hc := hcompiles hsearch
    refine ⟨_, by simp only [buildQuery, hsearch, hc, if_true]; rfl, ?_⟩
    by_cases h3 : (truthy q.lat && truthy q.lng && truthy q.radius) = true <;> simp [h3]
  · have hs : truthy q.search = false := by simpa using hsearch
    refine ⟨_, by simp only [buildQuery, hs]; rfl, ?_⟩
    by_cases h3 : (truthy q.lat && truthy q.lng && truthy q.radius) = true <;> simp [h3]

/-- C8 refuted as stated: with lat, lng and radius all supplied the query still carries
the sort `{ createdAt: -1 }`. -/
theorem proximity_request_is_sorted :
    listRequest sampleCaps twoAndAHalfKm =
      .ok { filter := { location := some { geometry := { type := "Point"
                                                         coordinates := [.finite { mantissa := -750, exponent := -1 },
                                                                         .finite { mantissa := 400, exponent := -1 }] }
                                           maxDistance := .integer false 2000 }
                        or := none }
            sort := some { createdAt := -1 } } :=
  by rfl

/-- C8, as the code has it. Whenever List builds its query (the search pattern, if
supplied, compiles), the query requests the ordering by createdAt descending, whether
a proximity clause is present (lat, lng and radius all supplied) or not; and every list
of stories it answers is ordered newest first. -/
theorem list_always_sorts (caps : Caps) (q : ListParams)
    (hcompiles : truthy q.search = true → caps.regexCompiles (q.search.getD "") = true) :
    ∃ req, listRequest caps q = .ok req ∧
      req.sort = some { createdAt := -1 } ∧
      req.filter.location.isSome = (truthy q.lat && truthy q.lng && truthy q.radius) ∧
      (∀ env docs views, (list caps env docs q).body = .stories views →
        views.Pairwise (fun a b => b.createdAt ≤ a.createdAt)) := by
  obtain ⟨query, hq, hloc⟩ := buildQuery_ok caps q hcompiles
  refine ⟨{ filter := query, sort := some { createdAt := -1 } }, by simp [listRequest, hq],
    rfl, hloc, ?_⟩
  intro env docs views hviews
  have hsorted : (applySort caps { filter := query, sort := some { createdAt := -1 } }
      (docs.filter (accepts caps query))).Pairwise (fun a b => b.createdAt ≤ a.createdAt) := by
    haveI : IsTotal Story (fun a b => b.createdAt ≤ a.createdAt) :=
      ⟨fun a b => Nat.le_total b.createdAt a.createdAt⟩
    haveI : IsTrans Story (fun a b => b.createdAt ≤ a.createdAt) :=
      ⟨fun _ _ _ hab hbc => Nat.le_trans hbc hab⟩
    have h := List.sorted_insertionSort (fun a b : Story => b.createdAt ≤ a.createdAt)
      (docs.filter (accepts caps query))
    simpa [applySort, List.Sorted] using h
  simp only [list, listTry, listRequest, hq, execFind] at hviews
  cases hcast : castQuery query with
  | error e => simp [hcast] at hviews
  | ok _ =>
    cases hf : env.fault .find with
    | some m => simp [hcast, storeFault, hf] at hviews
    | none =>
      by_cases hempty : (applySort caps { filter := query, sort := some { createdAt := -1 } }
          (docs.filter (accepts caps query))).isEmpty = true
      · simp only [hcast, storeFault, hf, hempty, if_true, ResBody.stories.injEq] at hviews
        subst hviews
        exact List.Pairwise.nil
      · cases hp : env.fault .populate with
        | some m => simp [hcast, storeFault, hf, hempty, hp] at hviews
        | none =>
          simp only [hcast, storeFault, hf, hempty, hp, Bool.false_eq_true, if_false,
            ResBody.stories.injEq] at hviews
          subst hviews
          rw [List.pairwise_map]
          simpa [Story.view] using hsorted

theorem list_always_sorts_witness :
    ∃ req, listRequest sampleCaps tenKm = .ok req ∧
      req.sort = some { createdAt := -1 } ∧
      req.filter.location.isSome = (truthy tenKm.lat && truthy tenKm.lng && truthy tenKm.radius) ∧
      (∀ env docs views, (list sampleCaps env docs tenKm).body = .stories views →
        views.Pairwise (fun a b => b.createdAt ≤ a.createdAt)) :=
  list_always_sorts sampleCaps tenKm (by decide)

end Stories
